import Mathlib

/-!
Verification of the duplex voice-assistant client (src/App.tsx, src/types.ts).

The source is a single-threaded, callback-driven React component.  Per the
concurrency model (one ordered inbound channel, each message processed to
completion), every handler is embedded as a pure state transition on an
`AppState` record that collects the component's `useState` values and
`useRef` cells.  Time points and durations use `ℚ` (the output clock of the
Web Audio context).  External nondeterminism (random ids, timestamps, the
clock value, environment/permission outcomes) is passed in as explicit
arguments.
-/

namespace EEEAssistant

/-- Message role, from `src/types.ts` (`'user' | 'model'`). -/
inductive Role
  | user
  | model
deriving DecidableEq, Repr

/-- Chat message, from `src/types.ts` (`interface Message`). -/
structure Message where
  id : String
  role : Role
  text : String
  timestamp : Nat
deriving DecidableEq, Repr

/-- Connection state machine states, from `src/types.ts` (`enum ConnectionStatus`). -/
inductive ConnectionStatus
  | DISCONNECTED
  | CONNECTING
  | CONNECTED
  | ERROR
deriving DecidableEq, Repr

/-- A decoded audio buffer: normalized samples at the fixed output rate
(24 kHz mono).  Only the sample count matters for scheduling. -/
structure DecodedAudioBuffer where
  sampleCount : Nat
deriving DecidableEq, Repr

/-- `AudioBuffer.duration` = sampleCount / sampleRate at the fixed 24 kHz rate. -/
def DecodedAudioBuffer.duration (b : DecodedAudioBuffer) : ℚ :=
  (b.sampleCount : ℚ) / 24000

/-- Decode failure for a malformed inbound audio payload. -/
inductive DecodeError
  | malformed
deriving DecidableEq, Repr

/-- Modelled from the spec: `decodeAudioData` lives in `audio-utils`, which is
not among the repository files available here.  Per §4.5 the decoder turns a
byte payload of 16-bit PCM at 24 kHz mono into a buffer with exact duration
`sampleCount / sampleRate`, and a malformed (e.g. truncated) payload raises a
`DecodeError`.  A 16-bit stream is truncated exactly when its byte length is
odd. -/
def decodeAudioData (payload : List Nat) : Except DecodeError DecodedAudioBuffer :=
  if payload.length % 2 = 0 then
    Except.ok ⟨payload.length / 2⟩
  else
    Except.error DecodeError.malformed

/-- Duration that a well-formed payload decodes to. -/
def payloadDur (payload : List Nat) : ℚ :=
  ((payload.length / 2 : Nat) : ℚ) / 24000

/-- A scheduled playback unit (`AudioBufferSourceNode` wrapping one buffer),
with its scheduled start offset and whether playback has already finished
naturally. -/
structure PlaybackSource where
  buf : DecodedAudioBuffer
  startAt : ℚ
  finished : Bool
deriving DecidableEq, Repr

/-- Error a raw `source.stop()` call may raise. -/
inductive StopError
  | invalidState
deriving DecidableEq, Repr

/-- A bare `source.stop()`: conservatively, stopping a source whose playback
already finished may raise. -/
def rawStop (src : PlaybackSource) : Except StopError Unit :=
  if src.finished then Except.error StopError.invalidState else Except.ok ()

/-- The code's `try { source.stop(); } catch(e) {}` (App.tsx line 125): any
stop error is swallowed. -/
def guardedStop (src : PlaybackSource) : Except StopError Unit :=
  match rawStop src with
  | Except.ok u => Except.ok u
  | Except.error _ => Except.ok ()

/-- Inbound server message shape: any subset of the parts may be present
simultaneously (spec §6; `LiveServerMessage` fields read by `handleMessage`).
`audioData` holds the bytes of `serverContent.modelTurn.parts[0].inlineData.data`
after base64 decoding. -/
structure ServerContent where
  outputTranscription : Option String
  inputTranscription : Option String
  turnComplete : Bool
  audioData : Option (List Nat)
  interrupted : Bool
deriving DecidableEq, Repr

/-- The component state: the `useState` values (`status`, `messages`,
`currentInputText`, `currentOutputText`) and the `useRef` cells of App.tsx
(a `Bool` field records whether a nullable ref currently holds a resource).
`getUserMediaCalls` and `connectCalls` are ghost counters instrumenting the
external acquisition calls (`navigator.mediaDevices.getUserMedia`,
`ai.live.connect`): they are the observable by which "no second device handle
/ session is acquired" is stated. -/
structure AppState where
  status : ConnectionStatus
  messages : List Message
  currentInputText : String
  currentOutputText : String
  nextStartTime : ℚ
  activeSources : List PlaybackSource
  sessionSet : Bool
  micStream : Bool
  scriptProcessor : Bool
  audioContext : Bool
  outAudioContext : Bool
  getUserMediaCalls : Nat
  connectCalls : Nat
deriving DecidableEq, Repr

/-- Initial component state (the `useState`/`useRef` initial values). -/
def initialState : AppState :=
  { status := ConnectionStatus.DISCONNECTED
    messages := []
    currentInputText := ""
    currentOutputText := ""
    nextStartTime := 0
    activeSources := []
    sessionSet := false
    micStream := false
    scriptProcessor := false
    audioContext := false
    outAudioContext := false
    getUserMediaCalls := 0
    connectCalls := 0 }

/-- The guard `!text.trim()` of `addMessage`: the text trims to the empty
string exactly when every character is whitespace. -/
def isBlank (text : String) : Bool := text.data.all Char.isWhitespace

/-- `addMessage` (App.tsx lines 59-70): ignore blank (whitespace-only) text,
else append one entry.  The random id and the `Date.now()` timestamp are
passed in. -/
def addMessage (role : Role) (text : String) (id : String) (timestamp : Nat)
    (s : AppState) : AppState :=
  if isBlank text then s
  else
    { s with messages := s.messages ++ [{ id := id, role := role, text := text, timestamp := timestamp }] }

/-- Step 1 of `handleMessage` (lines 74-78): transcript fragments.  Note the
source uses `if ... else if ...`: when an output fragment is present the
input fragment is not examined. -/
def transcriptStep (msg : ServerContent) (s : AppState) : AppState :=
  match msg.outputTranscription with
  | some t => { s with currentOutputText := s.currentOutputText ++ t }
  | none =>
    match msg.inputTranscription with
    | some t => { s with currentInputText := s.currentInputText ++ t }
    | none => s

/-- `handleMessage` lines 80-90: on turn-complete the code runs
`setMessages(prev => [...prev])`, i.e. replaces the list with an equal copy. -/
def turnCompleteStep (msg : ServerContent) (s : AppState) : AppState :=
  if msg.turnComplete then { s with messages := s.messages } else s

/-- Step 2 of `handleMessage` (lines 93-120): the audio-chunk branch.  The
cursor is clamped to `max(nextStartTime, ctx.currentTime)` (line 96) BEFORE
the `try`; on successful decode the source starts at the clamped cursor, the
cursor advances by the buffer duration and the source joins the active set;
on decode failure the `catch` logs and continues (the clamp persists). -/
def audioStep (msg : ServerContent) (clockNow : ℚ) (s : AppState) : AppState :=
  match msg.audioData with
  | none => s
  | some payload =>
    if s.outAudioContext then
      let startAt : ℚ := max s.nextStartTime clockNow
      match decodeAudioData payload with
      | Except.ok buf =>
        { s with
            nextStartTime := startAt + buf.duration
            activeSources := { buf := buf, startAt := startAt, finished := false } :: s.activeSources }
      | Except.error _ => { s with nextStartTime := startAt }
    else s

/-- Step 3 of `handleMessage` (lines 123-129): the interruption branch.  Each
source is force-stopped through its own `try`/`catch` (see `guardedStop`; the
results are discarded, so no stop error can escape), the active set is
cleared and the cursor resets to 0. -/
def cancelAll (s : AppState) : AppState :=
  let _stopResults := s.activeSources.map guardedStop
  { s with activeSources := [], nextStartTime := 0 }

/-- `handleMessage` (App.tsx lines 72-130): the single inbound dispatch
point, with the branches in source order. -/
def handleMessage (msg : ServerContent) (clockNow : ℚ) (s : AppState) : AppState :=
  let s1 := transcriptStep msg s
  let s2 := turnCompleteStep msg s1
  let s3 := audioStep msg clockNow s2
  if msg.interrupted then cancelAll s3 else s3

/-- External outcomes consumed by `startSession`: whether `process.env.API_KEY`
is set, and whether `getUserMedia` grants the microphone. -/
structure Env where
  apiKeyPresent : Bool
  micGranted : Bool
deriving DecidableEq, Repr

/-- `startSession` (App.tsx lines 132-197), synchronous portion up to storing
the session promise: guard on `DISCONNECTED`, set `CONNECTING`, check the API
key (throw → catch → `ERROR`), create both audio contexts, request the
microphone (rejection → catch → `ERROR`), then call `ai.live.connect` and
store the promise.  The `onopen` callback that later sets `CONNECTED` is
modelled separately (`onOpen`). -/
def startSession (env : Env) (s : AppState) : AppState :=
  if s.status = ConnectionStatus.DISCONNECTED then
    let s1 := { s with status := ConnectionStatus.CONNECTING }
    if env.apiKeyPresent then
      let s2 := { s1 with audioContext := true, outAudioContext := true }
      let s3 := { s2 with getUserMediaCalls := s2.getUserMediaCalls + 1 }
      if env.micGranted then
        let s4 := { s3 with micStream := true }
        { s4 with connectCalls := s4.connectCalls + 1, sessionSet := true }
      else
        { s3 with status := ConnectionStatus.ERROR }
    else
      { s1 with status := ConnectionStatus.ERROR }
  else s

/-- The `onopen` callback (lines 152-170): set `CONNECTED` and start streaming
the microphone through a script processor. -/
def onOpen (s : AppState) : AppState :=
  { s with status := ConnectionStatus.CONNECTED, scriptProcessor := true }

/-- The `onerror` callback (lines 172-175). -/
def onError (s : AppState) : AppState :=
  { s with status := ConnectionStatus.ERROR }

/-- `stopSession` (App.tsx lines 199-228): unconditionally set `DISCONNECTED`,
release the mic stream, script processor and both audio contexts (each behind
a null guard, so already-released resources are skipped), drop the session
promise and clear both transcript accumulators.  Note it does NOT touch
`nextStartTimeRef`, `activeSourcesRef` or `messages`. -/
def stopSession (s : AppState) : AppState :=
  { s with
      status := ConnectionStatus.DISCONNECTED
      micStream := false
      scriptProcessor := false
      audioContext := false
      outAudioContext := false
      sessionSet := false
      currentInputText := ""
      currentOutputText := "" }

/-- A message carrying only an audio chunk. -/
def audioMsg (payload : List Nat) : ServerContent :=
  { outputTranscription := none
    inputTranscription := none
    turnComplete := false
    audioData := some payload
    interrupted := false }

/-- A message carrying only an interruption signal. -/
def interruptMsg : ServerContent :=
  { outputTranscription := none
    inputTranscription := none
    turnComplete := false
    audioData := none
    interrupted := true }

/-- A sequence of audio-chunk deliveries: each element is the output-clock
value at delivery time paired with the payload bytes. -/
def runSchedule (s : AppState) : List (ℚ × List Nat) → AppState
  | [] => s
  | (c, p) :: rest => runSchedule (handleMessage (audioMsg p) c s) rest

/-- Sum of the durations the payloads of a call sequence decode to. -/
def sumDur (calls : List (ℚ × List Nat)) : ℚ :=
  (calls.map fun cp => payloadDur cp.2).sum

/-- Every payload in the sequence decodes successfully. -/
def allOk (calls : List (ℚ × List Nat)) : Bool :=
  calls.all fun cp => cp.2.length % 2 = 0

/-- Gapless condition: starting from cursor `cur`, each call's clock value is
at or before the cursor current at that call, so no call inserts a gap. -/
def noGap : ℚ → List (ℚ × List Nat) → Bool
  | _, [] => true
  | cur, (c, p) :: rest => decide (c ≤ cur) && noGap (cur + payloadDur p) rest

/-- A connected session right after `onOpen`: both contexts live, cursor 0. -/
def connectedState : AppState :=
  onOpen (startSession { apiKeyPresent := true, micGranted := true } initialState)

/-- 0.5 s of audio at 24 kHz, 16-bit mono: 12000 samples = 24000 bytes. -/
def halfSecPayload : List Nat := List.replicate 24000 0

/-! ## Basic lemmas about the individual steps -/

@[simp] theorem transcriptStep_nextStartTime (msg : ServerContent) (s : AppState) :
    (transcriptStep msg s).nextStartTime = s.nextStartTime := by
  unfold transcriptStep
  cases msg.outputTranscription <;> cases msg.inputTranscription <;> rfl

@[simp] theorem transcriptStep_activeSources (msg : ServerContent) (s : AppState) :
    (transcriptStep msg s).activeSources = s.activeSources := by
  unfold transcriptStep
  cases msg.outputTranscription <;> cases msg.inputTranscription <;> rfl

@[simp] theorem transcriptStep_outAudioContext (msg : ServerContent) (s : AppState) :
    (transcriptStep msg s).outAudioContext = s.outAudioContext := by
  unfold transcriptStep
  cases msg.outputTranscription <;> cases msg.inputTranscription <;> rfl

@[simp] theorem transcriptStep_messages (msg : ServerContent) (s : AppState) :
    (transcriptStep msg s).messages = s.messages := by
  unfold transcriptStep
  cases msg.outputTranscription <;> cases msg.inputTranscription <;> rfl

@[simp] theorem transcriptStep_status (msg : ServerContent) (s : AppState) :
    (transcriptStep msg s).status = s.status := by
  unfold transcriptStep
  cases msg.outputTranscription <;> cases msg.inputTranscription <;> rfl

@[simp] theorem turnCompleteStep_eq (msg : ServerContent) (s : AppState) :
    turnCompleteStep msg s = s := by
  unfold turnCompleteStep
  split <;> rfl

@[simp] theorem audioStep_currentInputText (msg : ServerContent) (c : ℚ) (s : AppState) :
    (audioStep msg c s).currentInputText = s.currentInputText := by
  unfold audioStep
  repeat' split
  all_goals rfl

@[simp] theorem audioStep_currentOutputText (msg : ServerContent) (c : ℚ) (s : AppState) :
    (audioStep msg c s).currentOutputText = s.currentOutputText := by
  unfold audioStep
  repeat' split
  all_goals rfl

@[simp] theorem audioStep_outAudioContext (msg : ServerContent) (c : ℚ) (s : AppState) :
    (audioStep msg c s).outAudioContext = s.outAudioContext := by
  unfold audioStep
  repeat' split
  all_goals rfl

@[simp] theorem audioStep_messages (msg : ServerContent) (c : ℚ) (s : AppState) :
    (audioStep msg c s).messages = s.messages := by
  unfold audioStep
  repeat' split
  all_goals rfl

@[simp] theorem audioStep_status (msg : ServerContent) (c : ℚ) (s : AppState) :
    (audioStep msg c s).status = s.status := by
  unfold audioStep
  repeat' split
  all_goals rfl

@[simp] theorem cancelAll_messages (s : AppState) : (cancelAll s).messages = s.messages := rfl

@[simp] theorem cancelAll_status (s : AppState) : (cancelAll s).status = s.status := rfl

@[simp] theorem cancelAll_currentInputText (s : AppState) :
    (cancelAll s).currentInputText = s.currentInputText := rfl

@[simp] theorem cancelAll_currentOutputText (s : AppState) :
    (cancelAll s).currentOutputText = s.currentOutputText := rfl

@[simp] theorem cancelAll_outAudioContext (s : AppState) :
    (cancelAll s).outAudioContext = s.outAudioContext := rfl

@[simp] theorem cancelAll_activeSources (s : AppState) : (cancelAll s).activeSources = [] := rfl

@[simp] theorem cancelAll_nextStartTime (s : AppState) : (cancelAll s).nextStartTime = 0 := rfl

theorem handleMessage_messages (msg : ServerContent) (c : ℚ) (s : AppState) :
    (handleMessage msg c s).messages = s.messages := by
  unfold handleMessage
  cases hI : msg.interrupted <;> simp [hI]

theorem handleMessage_status (msg : ServerContent) (c : ℚ) (s : AppState) :
    (handleMessage msg c s).status = s.status := by
  unfold handleMessage
  cases hI : msg.interrupted <;> simp [hI]

theorem handleMessage_outAudioContext (msg : ServerContent) (c : ℚ) (s : AppState) :
    (handleMessage msg c s).outAudioContext = s.outAudioContext := by
  unfold handleMessage
  cases hI : msg.interrupted <;> simp [hI]

theorem duration_nonneg (b : DecodedAudioBuffer) : 0 ≤ b.duration := by
  unfold DecodedAudioBuffer.duration
  positivity

/-- The behaviour of `handleMessage` on an audio-only message whose payload
decodes successfully, with the output context live. -/
theorem handleMessage_audio_ok (p : List Nat) (c : ℚ) (s : AppState)
    (hctx : s.outAudioContext = true) (buf : DecodedAudioBuffer)
    (hdec : decodeAudioData p = Except.ok buf) :
    handleMessage (audioMsg p) c s =
      { s with
          nextStartTime := max s.nextStartTime c + buf.duration
          activeSources :=
            { buf := buf, startAt := max s.nextStartTime c, finished := false } :: s.activeSources } := by
  unfold handleMessage transcriptStep turnCompleteStep audioStep audioMsg
  simp [hctx, hdec]

theorem decode_ok_of_even (p : List Nat) (h : p.length % 2 = 0) :
    decodeAudioData p = Except.ok ⟨p.length / 2⟩ := by
  unfold decodeAudioData
  simp [h]

theorem duration_eq_payloadDur (p : List Nat) :
    DecodedAudioBuffer.duration ⟨p.length / 2⟩ = payloadDur p := rfl

theorem halfSec_length : halfSecPayload.length = 24000 := by
  unfold halfSecPayload
  rw [List.length_replicate]

theorem decode_halfSec :
    decodeAudioData halfSecPayload = Except.ok ⟨12000⟩ := by
  unfold decodeAudioData
  rw [halfSec_length]
  norm_num

theorem halfSec_duration : DecodedAudioBuffer.duration ⟨12000⟩ = 1 / 2 := by
  unfold DecodedAudioBuffer.duration
  norm_num

/-- Effect of the audio branch inside an arbitrary uninterrupted message:
whatever transcript parts the message carries, a successfully decoded chunk
is scheduled at the clamped cursor and the cursor advances by its duration. -/
theorem handleMessage_audio_effect (msg : ServerContent) (c : ℚ) (s : AppState)
    (p : List Nat) (buf : DecodedAudioBuffer)
    (hA : msg.audioData = some p) (hI : msg.interrupted = false)
    (hctx : s.outAudioContext = true) (hdec : decodeAudioData p = Except.ok buf) :
    (handleMessage msg c s).activeSources =
      ({ buf := buf, startAt := max s.nextStartTime c, finished := false } : PlaybackSource)
        :: s.activeSources ∧
    (handleMessage msg c s).nextStartTime = max s.nextStartTime c + buf.duration := by
  unfold handleMessage audioStep
  simp only [turnCompleteStep_eq, hA, hI, Bool.false_eq_true, if_false]
  simp [hctx, hdec]

/-- Effect of the audio branch when the decode fails: the chunk is dropped
(the active set is untouched) but the pre-decode clamp on the cursor persists. -/
theorem handleMessage_audio_failed (msg : ServerContent) (c : ℚ) (s : AppState)
    (p : List Nat) (e : DecodeError)
    (hA : msg.audioData = some p) (hI : msg.interrupted = false)
    (hctx : s.outAudioContext = true) (hdec : decodeAudioData p = Except.error e) :
    (handleMessage msg c s).activeSources = s.activeSources ∧
    (handleMessage msg c s).nextStartTime = max s.nextStartTime c := by
  unfold handleMessage audioStep
  simp only [turnCompleteStep_eq, hA, hI, Bool.false_eq_true, if_false]
  simp [hctx, hdec]

/-- The playback cursor never decreases across a message without an
interruption signal. -/
theorem handleMessage_cursor_mono (msg : ServerContent) (c : ℚ) (s : AppState)
    (hI : msg.interrupted = false) :
    s.nextStartTime ≤ (handleMessage msg c s).nextStartTime := by
  unfold handleMessage
  simp only [turnCompleteStep_eq, hI, Bool.false_eq_true, if_false]
  rw [show s.nextStartTime = (transcriptStep msg s).nextStartTime from
    (transcriptStep_nextStartTime msg s).symm]
  generalize transcriptStep msg s = s'
  unfold audioStep
  cases msg.audioData with
  | none => exact le_refl _
  | some p =>
    by_cases hC : s'.outAudioContext = true
    · simp only [hC, if_true]
      cases hD : decodeAudioData p with
      | error e =>
        simp only
        exact le_max_left _ _
      | ok buf =>
        simp only
        exact le_trans (le_max_left _ _) (le_add_of_nonneg_right (duration_nonneg buf))
    · simp [hC]

theorem connectedState_nextStartTime : connectedState.nextStartTime = 0 := rfl

theorem connectedState_outAudioContext : connectedState.outAudioContext = true := rfl

theorem connectedState_activeSources : connectedState.activeSources = [] := rfl

theorem connectedState_status : connectedState.status = ConnectionStatus.CONNECTED := rfl

/-- A state in `ERROR`, e.g. after a failed microphone acquisition. -/
def errorState : AppState := { initialState with status := ConnectionStatus.ERROR }

/-- A connected state whose playback cursor has advanced to 5/2 s. -/
def preStopState : AppState := { connectedState with nextStartTime := 5 / 2 }

/-! ## Claims -/

/-- Claim C2: on an interruption signal every source in `activeSources` is
force-stopped — the per-source `try`/`catch` swallows a stop on an
already-finished source, so the stop never raises — the active set becomes
empty and `nextStartTime` resets to 0; a repeated interruption signal with no
scheduled audio is a no-op that raises no error (it maps the state to
itself). -/
theorem C2_interruption_clears_state :
    (∀ src : PlaybackSource, guardedStop src = Except.ok ()) ∧
    (∀ (msg : ServerContent) (c : ℚ) (s : AppState), msg.interrupted = true →
      (handleMessage msg c s).activeSources = [] ∧
      (handleMessage msg c s).nextStartTime = 0) ∧
    (∀ (c : ℚ) (s : AppState), s.activeSources = [] → s.nextStartTime = 0 →
      handleMessage interruptMsg c s = s) := by
  refine ⟨?_, ?_, ?_⟩
  · intro src
    unfold guardedStop rawStop
    split <;> rfl
  · intro msg c s hI
    unfold handleMessage
    simp [hI]
  · intro c s h1 h2
    show cancelAll s = s
    simp only [cancelAll]
    rw [← h1, ← h2]

/-- Witness for C2: an interruption with nothing scheduled is a no-op. -/
theorem C2_witness : handleMessage interruptMsg 0 initialState = initialState :=
  C2_interruption_clears_state.2.2 0 initialState rfl rfl

/-- Claim C5 (code bug evidence): `stopSession` clears both transcript
accumulators but leaves the playback cursor untouched in every state; in
particular from cursor 5/2 the cursor is still 5/2 afterwards, where the
claim requires 0. -/
theorem C5_stop_keeps_cursor :
    (∀ s : AppState, (stopSession s).nextStartTime = s.nextStartTime) ∧
    (stopSession preStopState).nextStartTime = 5 / 2 ∧
    (stopSession preStopState).currentInputText = "" ∧
    (stopSession preStopState).currentOutputText = "" ∧
    ((5 : ℚ) / 2) ≠ 0 := by
  refine ⟨fun s => rfl, rfl, rfl, rfl, by norm_num⟩

/-- Claim C6: `stopSession` always lands in `DISCONNECTED` and running it a
second time changes nothing (in particular it is safe from any state,
including `DISCONNECTED` itself). -/
theorem C6_stop_idempotent :
    ∀ s : AppState, (stopSession s).status = ConnectionStatus.DISCONNECTED ∧
      stopSession (stopSession s) = stopSession s :=
  fun _ => ⟨rfl, rfl⟩

/-- Claim C8: calling `startSession` in any state other than `DISCONNECTED`
(so `CONNECTING`, `CONNECTED` or `ERROR`) is a silent no-op: the state is
returned unchanged, so in particular the ghost counters witness that no
second remote session is opened and no second microphone handle or audio
context is acquired. -/
theorem C8_start_noop_when_not_disconnected :
    ∀ (env : Env) (s : AppState), s.status ≠ ConnectionStatus.DISCONNECTED →
      startSession env s = s := by
  intro env s h
  unfold startSession
  rw [if_neg h]

/-- Witness for C8: starting while `CONNECTED` changes nothing. -/
theorem C8_witness :
    startSession { apiKeyPresent := true, micGranted := true } connectedState = connectedState :=
  C8_start_noop_when_not_disconnected _ connectedState (by decide)

/-- Claim C9 counterexample: with the controller in `ERROR`, calling
`startSession` (even with the API key present and the microphone grantable)
returns the state unchanged — in particular the connect-call counter does not
move — so no new connection attempt begins, contradicting the claim. -/
theorem C9_counterexample :
    errorState.status = ConnectionStatus.ERROR ∧
    startSession { apiKeyPresent := true, micGranted := true } errorState = errorState :=
  ⟨rfl, rfl⟩

/-- Claim C9 as amended: `start()` from `ERROR` is a silent no-op (`ERROR` is
terminal until an explicit reset); `stop()` resets the controller to
`DISCONNECTED`, after which a fresh `start()` does begin a new connection
attempt (exactly one more connect call, state `CONNECTING`); and no automatic
retry exists — a failed attempt ends in `ERROR` having made no connect
call. -/
theorem C9_amended_recovery :
    (∀ (env : Env) (s : AppState), s.status = ConnectionStatus.ERROR →
      startSession env s = s) ∧
    (∀ s : AppState, (stopSession s).status = ConnectionStatus.DISCONNECTED) ∧
    (∀ (env : Env) (s : AppState), s.status = ConnectionStatus.ERROR →
      env.apiKeyPresent = true → env.micGranted = true →
      (startSession env (stopSession s)).connectCalls = s.connectCalls + 1 ∧
      (startSession env (stopSession s)).status = ConnectionStatus.CONNECTING) ∧
    (∀ (env : Env) (s : AppState), s.status = ConnectionStatus.DISCONNECTED →
      env.apiKeyPresent = true → env.micGranted = false →
      (startSession env s).status = ConnectionStatus.ERROR ∧
      (startSession env s).connectCalls = s.connectCalls) := by
  refine ⟨?_, ?_, ?_, ?_⟩
  · intro env s h
    unfold startSession
    rw [if_neg (by simp [h])]
  · intro s
    rfl
  · intro env s _ hk hm
    unfold startSession
    simp [stopSession, hk, hm]
  · intro env s h hk hm
    unfold startSession
    simp [h, hk, hm]

/-- Witness for C9: concrete no-op start from `ERROR`. -/
theorem C9_witness :
    startSession { apiKeyPresent := true, micGranted := false } errorState = errorState :=
  C9_amended_recovery.1 _ errorState rfl

/-- Claim C10: `addMessage` ignores blank (whitespace-only) text and otherwise
appends exactly one non-blank entry at the end; message handling (including
turn-complete and interruption) and `stopSession` leave the `messages` list
untouched, so history is append-only and never gains a blank entry. -/
theorem C10_messages_append_only :
    (∀ (role : Role) (t id : String) (ts : Nat) (s : AppState), isBlank t = true →
      addMessage role t id ts s = s) ∧
    (∀ (role : Role) (t id : String) (ts : Nat) (s : AppState),
      (addMessage role t id ts s).messages =
        s.messages ++
          (if isBlank t then []
           else [{ id := id, role := role, text := t, timestamp := ts }])) ∧
    (∀ (role : Role) (t id : String) (ts : Nat) (s : AppState),
      (∀ m ∈ s.messages, isBlank m.text = false) →
      ∀ m ∈ (addMessage role t id ts s).messages, isBlank m.text = false) ∧
    (∀ (msg : ServerContent) (c : ℚ) (s : AppState),
      (handleMessage msg c s).messages = s.messages) ∧
    (∀ s : AppState, (stopSession s).messages = s.messages) := by
  refine ⟨?_, ?_, ?_, handleMessage_messages, fun s => rfl⟩
  · intro role t id ts s h
    unfold addMessage
    rw [if_pos h]
  · intro role t id ts s
    unfold addMessage
    by_cases h : isBlank t = true
    · rw [if_pos h, if_pos h]
      simp
    · rw [if_neg h, if_neg h]
  · intro role t id ts s hall m hm
    unfold addMessage at hm
    by_cases h : isBlank t = true
    · rw [if_pos h] at hm
      exact hall m hm
    · rw [if_neg h] at hm
      rw [List.mem_append] at hm
      rcases hm with hm | hm
      · exact hall m hm
      · rw [List.mem_singleton] at hm
        rw [hm]
        exact Bool.eq_false_iff.mpr h

/-- Witness for C10: adding empty text is ignored. -/
theorem C10_witness : addMessage Role.user "" "m1" 0 initialState = initialState :=
  C10_messages_append_only.1 Role.user "" "m1" 0 initialState (by decide)

/-- A minimal well-formed payload: 2 bytes = 1 sample at 24 kHz. -/
def beepPayload : List Nat := [0, 0]

/-- A truncated payload: an odd byte count cannot be 16-bit PCM. -/
def oddPayload : List Nat := [7]

/-- A message carrying both an output and an input transcript fragment. -/
def msgBoth : ServerContent :=
  { outputTranscription := some "ok"
    inputTranscription := some "hi"
    turnComplete := false
    audioData := none
    interrupted := false }

/-- When an output fragment is present it is appended; the input accumulator
is untouched whether or not an input fragment is also present (the `else if`). -/
theorem transcriptStep_out (msg : ServerContent) (s : AppState) (t : String)
    (hO : msg.outputTranscription = some t) :
    (transcriptStep msg s).currentOutputText = s.currentOutputText ++ t ∧
    (transcriptStep msg s).currentInputText = s.currentInputText := by
  unfold transcriptStep
  rw [hO]
  exact ⟨rfl, rfl⟩

/-- With no output fragment, a present input fragment is appended. -/
theorem transcriptStep_in (msg : ServerContent) (s : AppState) (t : String)
    (hO : msg.outputTranscription = none) (hIn : msg.inputTranscription = some t) :
    (transcriptStep msg s).currentInputText = s.currentInputText ++ t := by
  unfold transcriptStep
  rw [hO, hIn]

/-- Gapless runs: if every call's clock value is at or before the running
cursor, each buffer starts exactly at the cursor and the cursor advances by
the total decoded duration. -/
theorem runSchedule_noGap :
    ∀ (calls : List (ℚ × List Nat)) (s : AppState), s.outAudioContext = true →
      allOk calls = true → noGap s.nextStartTime calls = true →
      (runSchedule s calls).nextStartTime = s.nextStartTime + sumDur calls := by
  intro calls
  induction calls with
  | nil =>
    intro s _ _ _
    simp [runSchedule, sumDur]
  | cons cp rest ih =>
    obtain ⟨c, p⟩ := cp
    intro s hctx hok hng
    simp only [allOk, List.all_cons, Bool.and_eq_true, decide_eq_true_eq] at hok
    simp only [noGap, Bool.and_eq_true, decide_eq_true_eq] at hng
    have hcur : (handleMessage (audioMsg p) c s).nextStartTime =
        s.nextStartTime + payloadDur p := by
      rw [(handleMessage_audio_effect (audioMsg p) c s p ⟨p.length / 2⟩ rfl rfl hctx
        (decode_ok_of_even p hok.1)).2, max_eq_left hng.1, duration_eq_payloadDur]
    have hctx' : (handleMessage (audioMsg p) c s).outAudioContext = true := by
      rw [handleMessage_outAudioContext]
      exact hctx
    have hng' : noGap ((handleMessage (audioMsg p) c s).nextStartTime) rest = true := by
      rw [hcur]
      exact hng.2
    simp only [runSchedule]
    rw [ih (handleMessage (audioMsg p) c s) hctx' hok.2 hng', hcur]
    simp only [sumDur, List.map_cons, List.sum_cons]
    ring

/-- Claim C1: the audio-chunk branch schedules every successfully decoded
buffer at `startAt = max(nextStartTime, clockNow)` and advances the cursor to
`startAt + buffer.duration`; concretely, three 0.5 s buffers delivered to a
fresh connected session (cursor 0) with the clock at 1.000 are scheduled at
1.000, 1.500 and 2.000 and leave the cursor at 2.500. -/
theorem C1_schedule_start_times :
    (∀ (msg : ServerContent) (c : ℚ) (s : AppState) (p : List Nat)
        (buf : DecodedAudioBuffer),
      msg.audioData = some p → msg.interrupted = false → s.outAudioContext = true →
      decodeAudioData p = Except.ok buf →
      (handleMessage msg c s).activeSources =
        ({ buf := buf, startAt := max s.nextStartTime c, finished := false } : PlaybackSource)
          :: s.activeSources ∧
      (handleMessage msg c s).nextStartTime = max s.nextStartTime c + buf.duration) ∧
    ((runSchedule connectedState
        [(1, halfSecPayload), (1, halfSecPayload), (1, halfSecPayload)]).activeSources.map
        PlaybackSource.startAt = [2, 3 / 2, 1] ∧
      (runSchedule connectedState
        [(1, halfSecPayload), (1, halfSecPayload), (1, halfSecPayload)]).nextStartTime
        = 5 / 2) := by
  constructor
  · exact fun msg c s p buf hA hI hctx hdec =>
      handleMessage_audio_effect msg c s p buf hA hI hctx hdec
  · simp only [runSchedule]
    set s1 := handleMessage (audioMsg halfSecPayload) 1 connectedState with hs1
    set s2 := handleMessage (audioMsg halfSecPayload) 1 s1 with hs2
    set s3 := handleMessage (audioMsg halfSecPayload) 1 s2 with hs3
    have e1 := handleMessage_audio_effect (audioMsg halfSecPayload) 1 connectedState
      halfSecPayload ⟨12000⟩ rfl rfl connectedState_outAudioContext decode_halfSec
    have hmax1 : max connectedState.nextStartTime (1 : ℚ) = 1 := by
      rw [connectedState_nextStartTime]
      exact max_eq_right (by norm_num)
    have h1next : s1.nextStartTime = 3 / 2 := by
      rw [hs1, e1.2, hmax1, halfSec_duration]
      norm_num
    have h1act : s1.activeSources = [{ buf := ⟨12000⟩, startAt := 1, finished := false }] := by
      rw [hs1, e1.1, hmax1, connectedState_activeSources]
    have h1ctx : s1.outAudioContext = true := by
      rw [hs1, handleMessage_outAudioContext]
      exact connectedState_outAudioContext
    have e2 := handleMessage_audio_effect (audioMsg halfSecPayload) 1 s1
      halfSecPayload ⟨12000⟩ rfl rfl h1ctx decode_halfSec
    have hmax2 : max s1.nextStartTime (1 : ℚ) = 3 / 2 := by
      rw [h1next]
      exact max_eq_left (by norm_num)
    have h2next : s2.nextStartTime = 2 := by
      rw [hs2, e2.2, hmax2, halfSec_duration]
      norm_num
    have h2act : s2.activeSources =
        [{ buf := ⟨12000⟩, startAt := 3 / 2, finished := false },
         { buf := ⟨12000⟩, startAt := 1, finished := false }] := by
      rw [hs2, e2.1, hmax2, h1act]
    have h2ctx : s2.outAudioContext = true := by
      rw [hs2, handleMessage_outAudioContext]
      exact h1ctx
    have e3 := handleMessage_audio_effect (audioMsg halfSecPayload) 1 s2
      halfSecPayload ⟨12000⟩ rfl rfl h2ctx decode_halfSec
    have hmax3 : max s2.nextStartTime (1 : ℚ) = 2 := by
      rw [h2next]
      exact max_eq_left (by norm_num)
    have h3next : s3.nextStartTime = 5 / 2 := by
      rw [hs3, e3.2, hmax3, halfSec_duration]
      norm_num
    have h3act : s3.activeSources =
        [{ buf := ⟨12000⟩, startAt := 2, finished := false },
         { buf := ⟨12000⟩, startAt := 3 / 2, finished := false },
         { buf := ⟨12000⟩, startAt := 1, finished := false }] := by
      rw [hs3, e3.1, hmax3, h2act]
    exact ⟨by rw [h3act]; rfl, h3next⟩

/-- Witness for C1: one minimal chunk scheduled on a fresh connected session. -/
theorem C1_witness :
    (handleMessage (audioMsg beepPayload) 1 connectedState).nextStartTime =
      max connectedState.nextStartTime 1 + DecodedAudioBuffer.duration ⟨1⟩ :=
  (C1_schedule_start_times.1 (audioMsg beepPayload) 1 connectedState beepPayload
    ⟨1⟩ rfl rfl rfl rfl).2

/-- Claim C3 counterexample: a message carrying both transcript fragments.
The claim requires the input fragment "hi" to be processed (the input
accumulator would become "" ++ "hi" = "hi"), but the code's `else if` skips
it: the input accumulator stays "", while the output fragment was handled. -/
theorem C3_counterexample :
    msgBoth.inputTranscription = some "hi" ∧
    (handleMessage msgBoth 0 initialState).currentOutputText = "" ++ "ok" ∧
    (handleMessage msgBoth 0 initialState).currentInputText = "" ∧
    ("" : String) ≠ "" ++ "hi" := by
  refine ⟨rfl, rfl, rfl, by decide⟩

/-- Claim C3 as amended: the dispatch handles the parts in source order, and
none of turn-complete, audio and interruption short-circuits another — but
the two transcript fragments are exclusive: when both are present only the
output fragment is processed (output takes priority; the input fragment is
skipped).  Stated per part: (1) a present output fragment is always appended;
(2) an input fragment is appended when no output fragment accompanies it;
(3) when both are present the input accumulator is unchanged; (4) a decodable
audio payload is processed (cursor advances) whatever transcript parts are
present, absent an interruption; (5) an interruption is processed last
(empty active set, cursor 0) whatever else is present. -/
theorem C3_amended_dispatch :
    (∀ (msg : ServerContent) (c : ℚ) (s : AppState) (t : String),
      msg.outputTranscription = some t →
      (handleMessage msg c s).currentOutputText = s.currentOutputText ++ t) ∧
    (∀ (msg : ServerContent) (c : ℚ) (s : AppState) (t : String),
      msg.outputTranscription = none → msg.inputTranscription = some t →
      (handleMessage msg c s).currentInputText = s.currentInputText ++ t) ∧
    (∀ (msg : ServerContent) (c : ℚ) (s : AppState) (t t' : String),
      msg.outputTranscription = some t' → msg.inputTranscription = some t →
      (handleMessage msg c s).currentInputText = s.currentInputText) ∧
    (∀ (msg : ServerContent) (c : ℚ) (s : AppState) (p : List Nat)
        (buf : DecodedAudioBuffer),
      msg.audioData = some p → msg.interrupted = false → s.outAudioContext = true →
      decodeAudioData p = Except.ok buf →
      (handleMessage msg c s).nextStartTime = max s.nextStartTime c + buf.duration) ∧
    (∀ (msg : ServerContent) (c : ℚ) (s : AppState), msg.interrupted = true →
      (handleMessage msg c s).activeSources = [] ∧
      (handleMessage msg c s).nextStartTime = 0) := by
  refine ⟨?_, ?_, ?_, ?_, ?_⟩
  · intro msg c s t hO
    unfold handleMessage
    cases hI : msg.interrupted <;> simp [hI, (transcriptStep_out msg s t hO).1]
  · intro msg c s t hO hIn
    unfold handleMessage
    cases hI : msg.interrupted <;> simp [hI, transcriptStep_in msg s t hO hIn]
  · intro msg c s t t' hO _
    unfold handleMessage
    cases hI : msg.interrupted <;> simp [hI, (transcriptStep_out msg s t' hO).2]
  · intro msg c s p buf hA hI hctx hdec
    exact (handleMessage_audio_effect msg c s p buf hA hI hctx hdec).2
  · intro msg c s hI
    unfold handleMessage
    simp [hI]

/-- Witness for C3: on the both-fragments message the output accumulator
does receive its fragment. -/
theorem C3_witness :
    (handleMessage msgBoth 0 initialState).currentOutputText =
      initialState.currentOutputText ++ "ok" :=
  C3_amended_dispatch.1 msgBoth 0 initialState "ok" rfl

/-- Claim C4 counterexample: a truncated 1-byte payload arriving at clock 1
on a fresh connected session (cursor 0) fails to decode and is dropped, but
the cursor is NOT left unchanged: the pre-decode clamp (App.tsx line 96,
before the `try`) has already advanced it from 0 to 1. -/
theorem C4_counterexample :
    decodeAudioData oddPayload = Except.error DecodeError.malformed ∧
    connectedState.nextStartTime = 0 ∧
    (handleMessage (audioMsg oddPayload) 1 connectedState).nextStartTime = 1 ∧
    (1 : ℚ) ≠ 0 := by
  refine ⟨rfl, rfl, ?_, by norm_num⟩
  rw [(handleMessage_audio_failed (audioMsg oddPayload) 1 connectedState oddPayload
    DecodeError.malformed rfl rfl connectedState_outAudioContext rfl).2,
    connectedState_nextStartTime]
  exact max_eq_right (by norm_num)

/-- Claim C4 as amended: a failed decode never aborts the session — the
chunk is dropped, the active-source set, connection status and message log
are unchanged and handling continues — but the cursor is left at the
pre-decode clamp `max(nextStartTime, clockNow)` rather than fully
unchanged. -/
theorem C4_amended_decode_drop :
    ∀ (msg : ServerContent) (c : ℚ) (s : AppState) (p : List Nat) (e : DecodeError),
      msg.audioData = some p → msg.interrupted = false → s.outAudioContext = true →
      decodeAudioData p = Except.error e →
      (handleMessage msg c s).activeSources = s.activeSources ∧
      (handleMessage msg c s).nextStartTime = max s.nextStartTime c ∧
      (handleMessage msg c s).status = s.status ∧
      (handleMessage msg c s).messages = s.messages := by
  intro msg c s p e hA hI hctx hdec
  exact ⟨(handleMessage_audio_failed msg c s p e hA hI hctx hdec).1,
    (handleMessage_audio_failed msg c s p e hA hI hctx hdec).2,
    handleMessage_status msg c s, handleMessage_messages msg c s⟩

/-- Witness for C4: the truncated chunk leaves the active set unchanged. -/
theorem C4_witness :
    (handleMessage (audioMsg oddPayload) 1 connectedState).activeSources =
      connectedState.activeSources :=
  (C4_amended_decode_drop (audioMsg oddPayload) 1 connectedState oddPayload
    DecodeError.malformed rfl rfl rfl rfl).1

/-- Claim C7 counterexample: two 1-sample buffers at clocks 1 and 2 on a
fresh connected session.  The second clock outruns the cursor, so a gap is
inserted: the final cursor is 2 + 1/24000, not the claimed first clock plus
the sum of durations, 1 + 2/24000. -/
theorem beep_duration : DecodedAudioBuffer.duration ⟨1⟩ = 1 / 24000 := by
  unfold DecodedAudioBuffer.duration
  norm_num

theorem C7_counterexample :
    (runSchedule connectedState [(1, beepPayload), (2, beepPayload)]).nextStartTime
        = 2 + 1 / 24000 ∧
    1 + sumDur [((1 : ℚ), beepPayload), ((2 : ℚ), beepPayload)] = 1 + 2 / 24000 ∧
    (2 + 1 / 24000 : ℚ) ≠ 1 + 2 / 24000 := by
  refine ⟨?_, ?_, by norm_num⟩
  · simp only [runSchedule]
    set s1 := handleMessage (audioMsg beepPayload) 1 connectedState with hs1
    have e1 := handleMessage_audio_effect (audioMsg beepPayload) 1 connectedState
      beepPayload ⟨1⟩ rfl rfl connectedState_outAudioContext rfl
    have h1next : s1.nextStartTime = 1 + 1 / 24000 := by
      rw [hs1, e1.2, connectedState_nextStartTime, beep_duration,
        max_eq_right (by norm_num : (0 : ℚ) ≤ 1)]
    have h1ctx : s1.outAudioContext = true := by
      rw [hs1, handleMessage_outAudioContext]
      exact connectedState_outAudioContext
    have e2 := handleMessage_audio_effect (audioMsg beepPayload) 2 s1
      beepPayload ⟨1⟩ rfl rfl h1ctx rfl
    rw [e2.2, h1next, beep_duration,
      max_eq_right (by norm_num : (1 + 1 / 24000 : ℚ) ≤ 2)]
  · simp only [sumDur, payloadDur, beepPayload, List.map_cons, List.map_nil,
      List.sum_cons, List.sum_nil]
    norm_num

/-- Claim C7 as amended: (1) the cursor is non-decreasing across every
message that carries no interruption signal, for any clock values; (2) the
claimed sum formula holds for gapless sequences: if the session's cursor is
at or before the first call's clock value and no later call's clock outruns
the running cursor, the final cursor is the first call's clock value plus
the sum of all decoded durations. -/
theorem C7_monotone_cursor :
    (∀ (msg : ServerContent) (c : ℚ) (s : AppState), msg.interrupted = false →
      s.nextStartTime ≤ (handleMessage msg c s).nextStartTime) ∧
    (∀ (s : AppState) (c₁ : ℚ) (p₁ : List Nat) (rest : List (ℚ × List Nat)),
      s.outAudioContext = true → p₁.length % 2 = 0 → allOk rest = true →
      s.nextStartTime ≤ c₁ → noGap (c₁ + payloadDur p₁) rest = true →
      (runSchedule s ((c₁, p₁) :: rest)).nextStartTime =
        c₁ + sumDur ((c₁, p₁) :: rest)) := by
  constructor
  · exact handleMessage_cursor_mono
  · intro s c₁ p₁ rest hctx hp hok hle hng
    have hcur : (handleMessage (audioMsg p₁) c₁ s).nextStartTime = c₁ + payloadDur p₁ := by
      rw [(handleMessage_audio_effect (audioMsg p₁) c₁ s p₁ ⟨p₁.length / 2⟩ rfl rfl hctx
        (decode_ok_of_even p₁ hp)).2, max_eq_right hle, duration_eq_payloadDur]
    have hctx' : (handleMessage (audioMsg p₁) c₁ s).outAudioContext = true := by
      rw [handleMessage_outAudioContext]
      exact hctx
    have hng' : noGap ((handleMessage (audioMsg p₁) c₁ s).nextStartTime) rest = true := by
      rw [hcur]
      exact hng
    simp only [runSchedule]
    rw [runSchedule_noGap rest (handleMessage (audioMsg p₁) c₁ s) hctx' hok hng', hcur]
    simp only [sumDur, List.map_cons, List.sum_cons]
    ring

/-- Witness for C7: a single gapless call starting at clock 0. -/
theorem C7_witness :
    (runSchedule connectedState [((0 : ℚ), beepPayload)]).nextStartTime =
      0 + sumDur [((0 : ℚ), beepPayload)] :=
  C7_monotone_cursor.2 connectedState 0 beepPayload [] rfl rfl rfl
    (le_of_eq connectedState_nextStartTime) rfl

end EEEAssistant
